import Mathlib

/- Verification of the ESG_parser news-crawler against its specification.

   The development shallowly embeds the Python sources
   (rambler_parser.py, rbc_parser.py, ria_parser.py) piece by piece:
   pure helpers become Lean functions, the scroll loops become explicit
   step functions over a loop state, exceptions become Except / Option
   values, and the CSV file becomes a list of rendered rows. -/

/-! ## Python string primitives used by the sources -/

/-- Characters matched by Python's regex class backslash-s on `str`
    (ASCII whitespace plus the no-break space and the Unicode line/paragraph
    separators that occur in practice). -/
def pyIsSpace (c : Char) : Bool :=
  c = ' ' || c = '\t' || c = '\n' || c = '\x0d' || c = '\x0b' || c = '\x0c' ||
  c = '\xa0' || c = ' ' || c = ' '

/-- Model of `re.sub(r"\s+|\xa0|\n|​", " ", s)` on a character list:
    a maximal run of whitespace becomes one space (the `\s+` branch, which
    already covers `\xa0` and `\n`), and each zero-width space `​`
    (not whitespace, hence its own branch) becomes one space.
    `prevSpace` records whether the previous character was consumed by a
    `\s+` run, so that the run produces a single space. -/
def normGo (prevSpace : Bool) : List Char → List Char
  | [] => []
  | c :: rest =>
    if pyIsSpace c then
      if prevSpace then normGo true rest
      else ' ' :: normGo true rest
    else if c = '​' then ' ' :: normGo false rest
    else c :: normGo false rest

/-- `re.sub(r"\s+|\xa0|\n|​", " ", s)` as used by all three `_parse_text`
    implementations. -/
def pyNormalize (s : String) : String :=
  String.mk (normGo false s.data)

/-- Python `str.strip()`: drop leading and trailing whitespace. -/
def pyStrip (s : String) : String :=
  String.mk (((s.data.dropWhile pyIsSpace).reverse.dropWhile pyIsSpace).reverse)

/-- Python `s.replace("\xa0", " ")` (single-character replacement). -/
def pyReplaceNbsp (s : String) : String :=
  String.mk (s.data.map (fun c => if c = '\xa0' then ' ' else c))

/-- The list after the first `'.'`, if any: the tail component of Python's
    `s.split(".", maxsplit=1)`; `none` models the one-element result whose
    index `[1]` raises `IndexError`. -/
def afterFirstDot : List Char → Option (List Char)
  | [] => none
  | c :: rest => if c = '.' then some rest else afterFirstDot rest

/-- Python's substring test `needle in hay`. -/
def listIsInfix (needle : List Char) : List Char → Bool
  | [] => needle.isEmpty
  | c :: rest => needle.isPrefixOf (c :: rest) || listIsInfix needle rest

/-! ## Exception model

The selenium exceptions that the crawler code can observe.
In selenium, `TimeoutException`, `StaleElementReferenceException`,
`NoSuchElementException` and the element-interaction errors are all
subclasses of `WebDriverException`; `KeyboardInterrupt` is not. -/

inductive PyExn where
  | timeoutExn
  | staleRef
  | noSuchElem
  | otherWebDriver
  | keyboardInterruptExn
deriving DecidableEq, Repr

/-- Whether `except WebDriverException` catches the exception. -/
def PyExn.isWebDriverError : PyExn → Bool
  | .timeoutExn => true
  | .staleRef => true
  | .noSuchElem => true
  | .otherWebDriver => true
  | .keyboardInterruptExn => false

/-! ## Completion Oracle (rambler_parser.UrlsCollector._is_target_article_present)

One attempted read of the rendered body text. `reads k` is the outcome the
browser would deliver for the k-th read performed by a single
`WebDriverWait(...).until(...)` call; with timeout `0.0` only `reads 0`
is ever consulted. -/

inductive BodyRead where
  | ok (text : String)
  | stale
  | noSuchElement
deriving DecidableEq, Repr

/-- The predicate built by `EC.text_to_be_present_in_element((By.CSS_SELECTOR,
    "body"), marker)`: reads the element text and tests `marker in text`;
    it catches `StaleElementReferenceException` itself (returning `False`),
    while a `NoSuchElementException` from `find_element` escapes it. -/
def textPredicate (marker : String) : BodyRead → Except PyExn Bool
  | .ok t => .ok (listIsInfix marker.data t.data)
  | .stale => .ok false
  | .noSuchElement => .error PyExn.noSuchElem

/-- `WebDriverWait.until` ignores `NoSuchElementException` by default
    (treated like a falsy predicate result). -/
def waitIgnores (e : PyExn) : Bool :=
  e = PyExn.noSuchElem

/-- `WebDriverWait(driver, timeout).until(pred)`: evaluate the predicate on
    successive reads; a truthy value is returned, otherwise after the
    allowed number of checks a `TimeoutException` is raised. `checks` is the
    number of predicate evaluations the timeout allows; a zero timeout
    allows exactly one. -/
def waitUntil (marker : String) (reads : Nat → BodyRead) : Nat → Nat → Except PyExn Bool
  | _, 0 => .error PyExn.timeoutExn
  | k, checks + 1 =>
    match textPredicate marker (reads k) with
    | .ok true => .ok true
    | .ok false => waitUntil marker reads (k + 1) checks
    | .error e => if waitIgnores e then waitUntil marker reads (k + 1) checks else .error e

/-- `UrlsCollector._is_target_article_present`: a zero-timeout wait (one
    predicate evaluation) with only `TimeoutException` caught, returning
    `False` in that case. -/
def isTargetArticlePresent (marker : String) (reads : Nat → BodyRead) : Except PyExn Bool :=
  match waitUntil marker reads 0 1 with
  | .ok v => .ok v
  | .error PyExn.timeoutExn => .ok false
  | .error e => .error e

/-- Closed form of one oracle call: it depends only on the first read,
    yields `true` exactly when that read succeeds and contains the marker,
    and never produces an exception. -/
theorem isTargetArticlePresent_char (marker : String) (reads : Nat → BodyRead) :
    isTargetArticlePresent marker reads =
      .ok (match reads 0 with
           | .ok t => listIsInfix marker.data t.data
           | .stale => false
           | .noSuchElement => false) := by
  unfold isTargetArticlePresent waitUntil textPredicate
  cases h : reads 0 with
  | ok t =>
    simp only [h]
    cases hm : listIsInfix marker.data t.data <;> simp [waitUntil]
  | stale => simp [h, waitUntil]
  | noSuchElement => simp [h, waitIgnores, waitUntil]

/-! ## Incremental scroll loops (rambler_parser / rbc_parser UrlsCollector.collect_urls)

Both loops poll the same zero-timeout oracle once per iteration and exit
only when it returns `True`; neither has an iteration ceiling.
`bodies k` is the rendered body text at the k-th oracle check. -/

/-- The boolean the k-th oracle check yields when the body text renders as
    `t` (by `isTargetArticlePresent_char` the oracle call always returns a
    boolean; the error branch is unreachable). -/
def oracleOnBody (marker : String) (t : String) : Bool :=
  match isTargetArticlePresent marker (fun _ => BodyRead.ok t) with
  | .ok b => b
  | .error _ => false

/-- The `while` loop of `collect_urls`, observed for `fuel` oracle checks
    starting from check index `k`: rambler checks then scrolls,
    rbc scrolls then checks, and both exit exactly when a check returns
    `True`. The result is the index of the succeeding check (`none`: the
    loop is still running after `fuel` checks). -/
def collectLoopRun (oracle : Nat → Bool) : Nat → Nat → Option Nat
  | _, 0 => none
  | k, fuel + 1 => if oracle k then some k else collectLoopRun oracle (k + 1) fuel

/-- Whether the rambler loop is still running when it reaches its n-th
    oracle check (it is, unless an earlier check returned `True`). -/
def ramblerRunning (oracle : Nat → Bool) : Nat → Bool
  | 0 => true
  | n + 1 => ramblerRunning oracle n && !(oracle n)

/-- Whether the rambler loop performs a scroll action in its n-th
    iteration: it must still be running and the n-th check must fail. -/
def ramblerScrollsAt (oracle : Nat → Bool) (n : Nat) : Bool :=
  ramblerRunning oracle n && !(oracle n)

theorem oracleOnBody_eq (marker t : String) :
    oracleOnBody marker t = listIsInfix marker.data t.data := by
  unfold oracleOnBody
  rw [isTargetArticlePresent_char]

theorem collectLoopRun_none (oracle : Nat → Bool) (h : ∀ j, oracle j = false) :
    ∀ fuel k, collectLoopRun oracle k fuel = none := by
  intro fuel
  induction fuel with
  | zero => intro k; rfl
  | succ n ih => intro k; unfold collectLoopRun; rw [h k]; simpa using ih (k + 1)

/-- C1: corrected reality of the termination claim. If the completion
    marker never appears in the rendered body text, the scroll loop of
    `collect_urls` (rambler and rbc alike) is still running after every
    number of oracle checks: no iteration ceiling exists in the code, so no
    bound N on loop iterations is ever reached. -/
theorem collect_urls_no_iteration_ceiling (marker : String) (bodies : Nat → String)
    (h : ∀ j, listIsInfix marker.data (bodies j).data = false) :
    ∀ fuel k, collectLoopRun (fun j => oracleOnBody marker (bodies j)) k fuel = none := by
  apply collectLoopRun_none
  intro j
  rw [oracleOnBody_eq]
  exact h j

/-- C1 witness: with the rambler marker and a page whose body text stays
    empty, the loop is still running after 7 checks. -/
theorem collect_urls_no_iteration_ceiling_witness :
    collectLoopRun (fun j => oracleOnBody "3 декабря 2020" ((fun _ => "") j)) 0 7 = none :=
  collect_urls_no_iteration_ceiling "3 декабря 2020" (fun _ => "")
    (fun _ => show listIsInfix "3 декабря 2020".data "".data = false by decide) 7 0

/-- C3: one call of the Completion Oracle evaluates the completion
    predicate on a single immediate read (the result depends only on the
    first read outcome: no retry consults any later one), never produces an
    exception (always `.ok`), and returns `false` on a transient read
    failure — a stale DOM reference makes the predicate falsy and the
    zero-timeout wait raise `TimeoutException`, which the oracle catches. -/
theorem oracle_single_check_no_raise (marker : String) (reads : Nat → BodyRead) :
    (isTargetArticlePresent marker reads =
      .ok (match reads 0 with
           | .ok t => listIsInfix marker.data t.data
           | .stale => false
           | .noSuchElement => false)) ∧
    (∀ reads2 : Nat → BodyRead, reads2 0 = reads 0 →
      isTargetArticlePresent marker reads2 = isTargetArticlePresent marker reads) := by
  refine ⟨isTargetArticlePresent_char marker reads, ?_⟩
  intro reads2 h0
  rw [isTargetArticlePresent_char, isTargetArticlePresent_char, h0]

/-- C3 witness: at a concrete marker the oracle returns `.ok true` on a
    body containing it, `.ok false` on a stale read, and two read
    sequences agreeing on their first read give the same call result. -/
theorem oracle_single_check_no_raise_witness :
    (isTargetArticlePresent "ab" (fun _ => BodyRead.stale) = .ok false) ∧
    (isTargetArticlePresent "ab" (fun n => if n = 0 then BodyRead.ok "xaby" else BodyRead.stale) =
      isTargetArticlePresent "ab" (fun _ => BodyRead.ok "xaby")) := by
  constructor
  · rw [(oracle_single_check_no_raise "ab" (fun _ => BodyRead.stale)).1]
  · exact (oracle_single_check_no_raise "ab" (fun _ => BodyRead.ok "xaby")).2
      (fun n => if n = 0 then BodyRead.ok "xaby" else BodyRead.stale) (by decide)

/-- C9: the Completion Oracle is idempotent — two calls against an
    unchanged document (the same sequence of read outcomes) yield the same
    result; the call only reads the document and keeps no state. -/
theorem oracle_idempotent (marker : String) (reads reads2 : Nat → BodyRead)
    (h : ∀ k, reads k = reads2 k) :
    isTargetArticlePresent marker reads = isTargetArticlePresent marker reads2 := by
  have : reads = reads2 := funext h
  rw [this]

/-- C9 witness: two calls on one concrete unchanged document agree. -/
theorem oracle_idempotent_witness :
    isTargetArticlePresent "3 декабря 2020" (fun _ => BodyRead.ok "лента новостей") =
      isTargetArticlePresent "3 декабря 2020" (fun _ => BodyRead.ok "лента новостей") :=
  oracle_idempotent "3 декабря 2020" _ _ (fun _ => rfl)

/-! ## RIA loader loop (ria_parser.UrlsCollector.collect_urls / _click_more_button)

State of the `while` loop: the `scroll_complete` and `button_clicked`
locals. `env n` is the boolean the n-th oracle check yields,
`clicks n` the raw outcome of the n-th click attempt. -/

structure RiaState where
  scrollComplete : Bool
  buttonClicked : Bool
deriving DecidableEq, Repr

inductive RiaAction where
  | scrollBottom
  | clickTrigger
deriving DecidableEq, Repr

/-- Raw outcome of `WebDriverWait(driver, 0).until(visibility_of(...))`
    followed by `more_button.click()` inside `_click_more_button`. -/
inductive ClickOutcome where
  | clicked
  | locateTimeout
  | clickFailed
  | interrupted
deriving DecidableEq, Repr

/-- The exception the raw attempt raises, if any: a zero-timeout locate
    raises `TimeoutException`, a failed click one of the
    `WebDriverException` interaction errors, and an external interrupt
    `KeyboardInterrupt`. -/
def clickRawExn : ClickOutcome → Option PyExn
  | .clicked => none
  | .locateTimeout => some PyExn.timeoutExn
  | .clickFailed => some PyExn.otherWebDriver
  | .interrupted => some PyExn.keyboardInterruptExn

/-- `UrlsCollector._click_more_button`: the whole attempt sits in a
    `try/except WebDriverException` that logs and swallows; since
    `TimeoutException` is a `WebDriverException` subclass, it is swallowed
    here too and never reaches the caller. The result is the exception
    that escapes, if any. -/
def clickMoreButton (c : ClickOutcome) : Option PyExn :=
  match clickRawExn c with
  | none => none
  | some e => if e.isWebDriverError then none else some e

/-- One iteration of the RIA `while not scroll_complete` body:
    scroll to bottom; if the button has not been clicked, call
    `_click_more_button` and set `button_clicked = True` (the
    `except TimeoutException: continue` around it fires only if a
    `TimeoutException` escapes `_click_more_button`); then run the
    zero-timeout oracle check, setting `scroll_complete` on success.
    Returns the reveal actions performed and the next state (or the
    exception that ends the loop). Once `scroll_complete` holds the loop
    has exited: no action is performed and the state is unchanged. -/
def riaLoopBody (o : Bool) (c : ClickOutcome) (s : RiaState) :
    List RiaAction × Except PyExn RiaState :=
  if s.scrollComplete then ([], Except.ok s)
  else if s.buttonClicked then ([RiaAction.scrollBottom], Except.ok ⟨o, true⟩)
  else
    match clickMoreButton c with
    | none => ([RiaAction.scrollBottom, RiaAction.clickTrigger], Except.ok ⟨o, true⟩)
    | some PyExn.timeoutExn =>
      ([RiaAction.scrollBottom, RiaAction.clickTrigger], Except.ok ⟨false, false⟩)
    | some e => ([RiaAction.scrollBottom, RiaAction.clickTrigger], Except.error e)

/-- The RIA loop state before the n-th iteration (`.error e`: the loop was
    ended by an escaping exception — in `collect_urls`, `KeyboardInterrupt`
    is caught outside the loop and collection stops). -/
def riaRun (env : Nat → Bool) (clicks : Nat → ClickOutcome) : Nat → Except PyExn RiaState
  | 0 => Except.ok ⟨false, false⟩
  | n + 1 =>
    match riaRun env clicks n with
    | Except.ok s => (riaLoopBody (env n) (clicks n) s).2
    | Except.error e => Except.error e

/-- The reveal actions the n-th iteration performs (none once the loop has
    exited or was interrupted). -/
def riaActs (env : Nat → Bool) (clicks : Nat → ClickOutcome) (n : Nat) : List RiaAction :=
  match riaRun env clicks n with
  | Except.ok s => (riaLoopBody (env n) (clicks n) s).1
  | Except.error _ => []

theorem clickMoreButton_locateTimeout_swallowed (c : ClickOutcome) :
    c ≠ ClickOutcome.interrupted → clickMoreButton c = none := by
  cases c <;> simp [clickMoreButton, clickRawExn, PyExn.isWebDriverError]

theorem riaRun_buttonClicked (env : Nat → Bool) (clicks : Nat → ClickOutcome) :
    ∀ n s, riaRun env clicks n = Except.ok s → s.buttonClicked = decide (0 < n) := by
  intro n
  induction n with
  | zero =>
    intro s hs
    cases hs
    rfl
  | succ n ih =>
    intro s hs
    unfold riaRun at hs
    cases hr : riaRun env clicks n with
    | error e => simp only [hr] at hs; exact absurd hs (by simp)
    | ok s' =>
      simp only [hr] at hs
      have hbc := ih s' hr
      by_cases hsc : s'.scrollComplete
      · have : s = s' := by
          unfold riaLoopBody at hs
          rw [if_pos hsc] at hs
          exact (Except.ok.injEq _ _).mp hs.symm
        subst this
        cases n with
        | zero => cases hr; simp at hsc
        | succ m => simp at hbc ⊢; exact hbc
      · unfold riaLoopBody at hs
        rw [if_neg hsc] at hs
        by_cases hbc' : s'.buttonClicked
        · rw [if_pos hbc'] at hs
          cases hs
          simp
        · rw [if_neg hbc'] at hs
          cases hc : clickMoreButton (clicks n) with
          | none => rw [hc] at hs; cases hs; simp
          | some e =>
            rw [hc] at hs
            cases c : clicks n <;> rw [c] at hc <;>
              simp [clickMoreButton, clickRawExn, PyExn.isWebDriverError] at hc
            rw [← hc] at hs
            exact absurd hs (by simp)

theorem riaActs_zero (env : Nat → Bool) (clicks : Nat → ClickOutcome) :
    riaActs env clicks 0 = [RiaAction.scrollBottom, RiaAction.clickTrigger] := by
  unfold riaActs riaRun riaLoopBody
  simp only []
  cases hc : clickMoreButton (clicks 0) with
  | none => simp
  | some e =>
    cases c : clicks 0 <;> rw [c] at hc <;>
      simp [clickMoreButton, clickRawExn, PyExn.isWebDriverError] at hc
    rw [← hc]
    simp

/-- C5: the RIA loader attempts the "load more" trigger on the first loop
    iteration only — every trigger attempt action happens at iteration 0
    (where it always happens, because `_click_more_button` swallows every
    `WebDriverException`, `TimeoutException` included, so `button_clicked`
    is set on the first pass regardless of success) — and the
    `button_clicked` state is monotone: in every non-interrupted run it
    equals `0 < n`, so once true it never becomes false and no click is
    attempted while it is true. -/
theorem ria_click_first_iteration_only (env : Nat → Bool) (clicks : Nat → ClickOutcome)
    (n : Nat) :
    (RiaAction.clickTrigger ∈ riaActs env clicks n ↔ n = 0) ∧
    (∀ s, riaRun env clicks n = Except.ok s → s.buttonClicked = decide (0 < n)) := by
  constructor
  · constructor
    · intro hmem
      by_contra hne
      have hpos : 0 < n := Nat.pos_of_ne_zero hne
      unfold riaActs at hmem
      cases hr : riaRun env clicks n with
      | error e => rw [hr] at hmem; simp at hmem
      | ok s =>
        simp only [hr] at hmem
        have hbc : s.buttonClicked = true := by
          rw [riaRun_buttonClicked env clicks n s hr]
          simpa using hpos
        unfold riaLoopBody at hmem
        by_cases hsc : s.scrollComplete
        · rw [if_pos hsc] at hmem; simp at hmem
        · rw [if_neg hsc, if_pos hbc] at hmem; simp at hmem
    · intro h
      subst h
      rw [riaActs_zero]
      simp
  · exact riaRun_buttonClicked env clicks n

/-- C5 witness: in a run where the oracle stays false and clicks time out,
    iteration 2 attempts no click and the state after two iterations has
    `button_clicked` true. -/
theorem ria_click_first_iteration_only_witness :
    (¬ (RiaAction.clickTrigger ∈
        riaActs (fun _ => false) (fun _ => ClickOutcome.locateTimeout) 2)) ∧
    (RiaState.mk false true).buttonClicked = decide (0 < 2) := by
  constructor
  · intro hmem
    have h := (ria_click_first_iteration_only (fun _ => false)
      (fun _ => ClickOutcome.locateTimeout) 2).1.mp hmem
    exact absurd h (by decide)
  · exact (ria_click_first_iteration_only (fun _ => false)
      (fun _ => ClickOutcome.locateTimeout) 2).2 ⟨false, true⟩ (by rfl)

/-- C6: LoaderState transitions are monotonic. For the RIA loop, once
    `scroll_complete` is true at iteration n, at every later iteration the
    state is unchanged (still complete) and no reveal action — in
    particular no scroll — is performed. For the rambler loop (whose
    completion is the oracle check guarding the `while` head), once the
    loop has stopped running it performs no further scroll and never
    resumes. -/
theorem loader_complete_monotone (oracle env : Nat → Bool) (clicks : Nat → ClickOutcome)
    (n m : Nat) (s : RiaState) (hnm : n ≤ m)
    (hrun : riaRun env clicks n = Except.ok s) (hsc : s.scrollComplete = true)
    (hram : ramblerRunning oracle n = false) :
    (riaRun env clicks m = Except.ok s ∧ riaActs env clicks m = []) ∧
    (ramblerScrollsAt oracle m = false ∧ ramblerRunning oracle m = false) := by
  induction m, hnm using Nat.le_induction with
  | base =>
    refine ⟨⟨hrun, ?_⟩, ?_, hram⟩
    · unfold riaActs
      simp only [hrun]
      unfold riaLoopBody
      rw [if_pos hsc]
    · unfold ramblerScrollsAt
      rw [hram]
      rfl
  | succ m hm ih =>
    obtain ⟨⟨hrunm, _⟩, _, hranm⟩ := ih
    have hrunm1 : riaRun env clicks (m + 1) = Except.ok s := by
      unfold riaRun
      simp only [hrunm]
      unfold riaLoopBody
      rw [if_pos hsc]
    have hranm1 : ramblerRunning oracle (m + 1) = false := by
      unfold ramblerRunning
      rw [hranm]
      rfl
    refine ⟨⟨hrunm1, ?_⟩, ?_, hranm1⟩
    · unfold riaActs
      simp only [hrunm1]
      unfold riaLoopBody
      rw [if_pos hsc]
    · unfold ramblerScrollsAt
      rw [hranm1]
      rfl

/-- C6 witness: with an oracle that succeeds immediately, at iteration 2
    the RIA loop keeps its completed state and performs no action, and the
    rambler loop performs no scroll and is still stopped. -/
theorem loader_complete_monotone_witness :
    (riaRun (fun _ => true) (fun _ => ClickOutcome.clicked) 2 =
        Except.ok (RiaState.mk true true) ∧
      riaActs (fun _ => true) (fun _ => ClickOutcome.clicked) 2 = []) ∧
    (ramblerScrollsAt (fun _ => true) 2 = false ∧
      ramblerRunning (fun _ => true) 2 = false) :=
  loader_complete_monotone (fun _ => true) (fun _ => true) (fun _ => ClickOutcome.clicked)
    1 2 (RiaState.mk true true) (by decide) (by rfl) (by rfl) (by rfl)

/-! ## CSVWriter.write_data

A record is the Python dict built by `_parse_page`: an association list
from column name to value, where `none` is Python `None` (an empty dict
models the `return {}` of an errored page). The output file is the list
of rendered rows; rendering follows `csv.DictWriter`, which writes an
empty cell for a `None` value or a missing key. The skipped records
(reported by the diagnostic print) are returned alongside. -/

abbrev RowDict : Type := List (String × Option String)

def csvHeaders : List String := ["Заголовок", "Компания", "Дата публикации", "Текст"]

def dictGet (r : RowDict) (k : String) : Option String :=
  match r.find? (fun p => p.1 = k) with
  | some p => p.2
  | none => none

/-- `csv.DictWriter.writerow`: one cell per field name, `""` for `None`
    or a missing key. -/
def renderRow (fieldnames : List String) (r : RowDict) : List String :=
  fieldnames.map (fun k => (dictGet r k).getD "")

/-- The guard `all(value is not None for value in row.values())` of the
    rambler and RIA writers. -/
def rowAllNotNone (r : RowDict) : Bool :=
  r.all (fun p => p.2.isSome)

/-- The `for row in data` loop of the rambler / RIA `write_data`: a row
    whose values are all non-None is appended to the file, any other row
    is reported and skipped. -/
def writeRows (fieldnames : List String) :
    List RowDict → List (List String) → List RowDict →
      List (List String) × List RowDict
  | [], file, diags => (file, diags)
  | r :: rest, file, diags =>
    if rowAllNotNone r then
      writeRows fieldnames rest (file ++ [renderRow fieldnames r]) diags
    else
      writeRows fieldnames rest file (diags ++ [r])

/-- `CSVWriter.write_data` of rambler_parser / ria_parser: open the file in
    append mode (`"a+"`, so the existing contents stay), write the header
    row unconditionally, then run the row loop. -/
def writeData (fieldnames : List String) (file : List (List String))
    (data : List RowDict) : List (List String) × List RowDict :=
  writeRows fieldnames data (file ++ [fieldnames]) []

/-- The `for row in data` loop of the rbc `write_data`: its guard is
    `if row != None`, a check on the row itself, so only a `None` row is
    skipped — a dict containing `None` values is written. -/
def rbcWriteRows (fieldnames : List String) :
    List (Option RowDict) → List (List String) → List (Option RowDict) →
      List (List String) × List (Option RowDict)
  | [], file, diags => (file, diags)
  | some r :: rest, file, diags =>
    rbcWriteRows fieldnames rest (file ++ [renderRow fieldnames r]) diags
  | none :: rest, file, diags =>
    rbcWriteRows fieldnames rest file (diags ++ [none])

/-- `CSVWriter.write_data` of rbc_parser (append mode, unconditional
    header, then the row loop with the `row != None` guard). -/
def rbcWriteData (fieldnames : List String) (file : List (List String))
    (data : List (Option RowDict)) : List (List String) × List (Option RowDict) :=
  rbcWriteRows fieldnames data (file ++ [fieldnames]) []

theorem writeRows_spec (fieldnames : List String) :
    ∀ (rows : List RowDict) (file : List (List String)) (diags : List RowDict),
      writeRows fieldnames rows file diags =
        (file ++ (rows.filter rowAllNotNone).map (renderRow fieldnames),
         diags ++ rows.filter (fun r => !rowAllNotNone r)) := by
  intro rows
  induction rows with
  | nil => intro file diags; simp [writeRows]
  | cons r rest ih =>
    intro file diags
    unfold writeRows
    by_cases h : rowAllNotNone r
    · rw [if_pos h, ih]
      simp [List.filter_cons, h]
    · rw [if_neg h, ih]
      simp [List.filter_cons, h]

theorem rbcWriteRows_spec (fieldnames : List String) :
    ∀ (rows : List (Option RowDict)) (file : List (List String))
      (diags : List (Option RowDict)),
      rbcWriteRows fieldnames rows file diags =
        (file ++ (rows.filterMap id).map (renderRow fieldnames),
         diags ++ rows.filter (fun r => r.isNone)) := by
  intro rows
  induction rows with
  | nil => intro file diags; simp [rbcWriteRows]
  | cons r rest ih =>
    intro file diags
    cases r with
    | some v => rw [rbcWriteRows, ih]; simp [List.filterMap_cons, List.filter_cons]
    | none => rw [rbcWriteRows, ih]; simp [List.filterMap_cons, List.filter_cons]

/-- C2 counterexample: a record whose required body-text field is the empty
    string (not `None`) is NOT skipped by `write_data` — its rendered row
    lands in the output file and no skip diagnostic is issued, contrary to
    the claim that any null-or-empty required field causes a skip. -/
theorem write_data_empty_field_written :
    renderRow csvHeaders
        [("Заголовок", some "t"), ("Компания", some "Сбербанк"),
         ("Дата публикации", some "01.12.2020"), ("Текст", some "")] ∈
      (writeData csvHeaders []
        [[("Заголовок", some "t"), ("Компания", some "Сбербанк"),
          ("Дата публикации", some "01.12.2020"), ("Текст", some "")]]).1 ∧
    (writeData csvHeaders []
        [[("Заголовок", some "t"), ("Компания", some "Сбербанк"),
          ("Дата публикации", some "01.12.2020"), ("Текст", some "")]]).2 = [] := by
  constructor
  · decide
  · decide

/-- C2 amended: the rambler/RIA `write_data` skips with a diagnostic
    exactly the records containing a `None` value — records whose values
    are all non-None, empty strings included, are written, one row per
    occurrence in order (so a record with all four fields populated is
    written exactly once); the rbc `write_data` skips only a record that is
    itself `None`. -/
theorem write_data_skips_none_only (fieldnames : List String)
    (file : List (List String)) (data : List RowDict)
    (data2 : List (Option RowDict)) :
    writeData fieldnames file data =
      (file ++ fieldnames :: (data.filter rowAllNotNone).map (renderRow fieldnames),
       data.filter (fun r => !rowAllNotNone r)) ∧
    rbcWriteData fieldnames file data2 =
      (file ++ fieldnames :: (data2.filterMap id).map (renderRow fieldnames),
       data2.filter (fun r => r.isNone)) := by
  constructor
  · rw [writeData, writeRows_spec]
    simp
  · rw [rbcWriteData, rbcWriteRows_spec]
    simp

/-- C8: `write_data` appends — the prior file contents are a prefix of the
    result of every call — and writes a header row unconditionally on each
    call, so after two successive calls on the same file the header count
    has grown by at least two (duplicate header rows). -/
theorem write_data_appends_and_reheaders (fieldnames : List String)
    (file : List (List String)) (d1 d2 : List RowDict) :
    (∃ t1, (writeData fieldnames file d1).1 = file ++ t1) ∧
    (∃ t2, (writeData fieldnames (writeData fieldnames file d1).1 d2).1 =
      (writeData fieldnames file d1).1 ++ t2) ∧
    file.count fieldnames + 2 ≤
      ((writeData fieldnames (writeData fieldnames file d1).1 d2).1).count fieldnames := by
  have h1 : (writeData fieldnames file d1).1 =
      file ++ fieldnames :: (d1.filter rowAllNotNone).map (renderRow fieldnames) := by
    rw [writeData, writeRows_spec]; simp
  have h2 : (writeData fieldnames (writeData fieldnames file d1).1 d2).1 =
      (writeData fieldnames file d1).1 ++
        fieldnames :: (d2.filter rowAllNotNone).map (renderRow fieldnames) := by
    rw [writeData, writeRows_spec]; simp
  refine ⟨⟨_, h1⟩, ⟨_, h2⟩, ?_⟩
  rw [h2, h1]
  simp [List.count_append, List.count_cons]
  omega

/-! ## DataParser field mappers

A page is abstracted by what the CSS queries of the mappers can find:
`headline` is the text of `h1#headline` (rambler) if present, `timeEl`
the `<time>` element if present together with its optional `datetime`
attribute, `contentBlock` the content container if present together with
the texts of its paragraph nodes. `iso` stands for the composite
`datetime.fromisoformat(s).strftime("%d.%m.%Y")` of the standard library:
`none` when `fromisoformat` raises `ValueError` on a malformed string. -/

structure RamblerHtml where
  headline : Option String
  timeEl : Option (Option String)
  contentBlock : Option (List String)
deriving DecidableEq, Repr

/-- `DataParser._parse_title` (rambler): when `css_first` finds the
    element, its text with `\xa0` replaced is returned; when it finds
    nothing the `if` falls through and the function returns Python `None`
    (the `except` branch would return `""`, but no step here raises). -/
def parseTitle (h : RamblerHtml) : Option String :=
  match h.headline with
  | some t => some (pyReplaceNbsp t)
  | none => none

/-- `DataParser._parse_date` (rambler): missing `<time>` falls through to
    `None`; a missing `datetime` attribute makes `fromisoformat(None)`
    raise `TypeError`, caught into `""`; a malformed attribute raises
    `ValueError`, caught into `""`; otherwise the formatted date. -/
def ramblerParseDate (iso : String → Option String) (h : RamblerHtml) : Option String :=
  match h.timeEl with
  | none => none
  | some none => some ""
  | some (some s) =>
    match iso s with
    | none => some ""
    | some d => some d

/-- `DataParser._parse_text` (rambler): a missing content block makes
    `content_block.css("p")` raise `AttributeError`, caught into `""`;
    otherwise the non-empty paragraph texts are stripped, whitespace-
    normalized and concatenated. -/
def ramblerParseText (h : RamblerHtml) : String :=
  match h.contentBlock with
  | none => ""
  | some ps =>
    ps.foldl (fun acc p => if 0 < p.length then acc ++ pyNormalize (pyStrip p) else acc) ""

structure RbcHtml where
  timeEl : Option (Option String)
deriving DecidableEq, Repr

/-- `DataParser._parse_date` (rbc): same shape as the rambler date mapper
    (missing `<time>` falls through to Python `None`). -/
def rbcParseDate (iso : String → Option String) (h : RbcHtml) : Option String :=
  match h.timeEl with
  | none => none
  | some none => some ""
  | some (some s) =>
    match iso s with
    | none => some ""
    | some d => some d

/-- C7 counterexample: with the expected field absent from the markup
    (no `h1#headline`, no `<time>`), `_parse_title` and `_parse_date`
    return Python `None` — not the empty string the claim asserts. -/
theorem parse_field_absent_gives_none :
    parseTitle (RamblerHtml.mk none none none) = none ∧
    ¬ parseTitle (RamblerHtml.mk none none none) = some "" ∧
    rbcParseDate (fun _ => none) (RbcHtml.mk none) = none := by
  refine ⟨rfl, by decide, rfl⟩

/-- C7 amended: the field mappers never raise past their boundary (each is
    a total function into a value), but a field absent from the markup
    yields Python `None` (a null field in the record), while the empty
    string appears only when an extraction step raises internally (missing
    or malformed `datetime` attribute, missing content block). -/
theorem parse_fields_never_raise (h : RamblerHtml) (hb : RbcHtml)
    (iso : String → Option String) :
    parseTitle h = Option.map pyReplaceNbsp h.headline ∧
    rbcParseDate iso hb = Option.map (fun a => (a.bind iso).getD "") hb.timeEl ∧
    ramblerParseText (RamblerHtml.mk h.headline h.timeEl none) = "" := by
  refine ⟨?_, ?_, rfl⟩
  · cases hh : h.headline <;> simp [parseTitle, hh]
  · obtain ⟨te⟩ := hb
    cases te with
    | none => rfl
    | some a =>
      cases a with
      | none => rfl
      | some s => cases hi : iso s <;> simp [rbcParseDate, hi]

/-! ## DataParser.parse_data (rambler / ria fetch pipeline)

`fetch url` is the outcome of `session.get(url)` followed by
`response.text()`: either a delivered response — its HTTP status together
with the page the markup abstracts to, since `aiohttp` does not raise on
a non-2xx status (no `raise_for_status`), an HTTP 500 simply delivers the
error page's markup — or the exception message of a raising failure
(network failure, timeout). `_parse_page` catches every exception, prints
a diagnostic and returns the empty dict, so one failed address cannot
abort the batch; `parse_data` collects one result per address, in order
(asyncio.gather keeps order; the rbc/ria serial loops do too). -/

inductive FetchResult where
  | ok (status : Nat) (h : RamblerHtml)
  | raised (msg : String)
deriving DecidableEq, Repr

/-- `DataParser._parse_page`: on a delivered response the four-field
    record (the status is never inspected, so an error page is mapped like
    any page), on a raised exception the diagnostic print and the empty
    dict `{}`. -/
def parsePage (iso : String → Option String) (fetch : String → FetchResult)
    (url : String) : RowDict × List String :=
  match fetch url with
  | .ok _ h =>
    ([("Заголовок", parseTitle h), ("Компания", some "Сбербанк"),
      ("Дата публикации", ramblerParseDate iso h),
      ("Текст", some (ramblerParseText h))], [])
  | .raised msg => ([], ["Error " ++ msg])

/-- `DataParser.parse_data`: one `_parse_page` result per address. -/
def parseData (iso : String → Option String) (fetch : String → FetchResult) :
    List String → List RowDict
  | [] => []
  | u :: rest => (parsePage iso fetch u).1 :: parseData iso fetch rest

/-- The diagnostics printed while `parse_data` runs. -/
def parseDataLogs (iso : String → Option String) (fetch : String → FetchResult) :
    List String → List String
  | [] => []
  | u :: rest => (parsePage iso fetch u).2 ++ parseDataLogs iso fetch rest

theorem parseData_map (iso : String → Option String) (fetch : String → FetchResult) :
    ∀ urls : List String,
      parseData iso fetch urls = urls.map (fun v => (parsePage iso fetch v).1) := by
  intro urls
  induction urls with
  | nil => rfl
  | cons u rest ih => rw [parseData, ih]; rfl

/-- C4 counterexample: a fetch that returns HTTP 500 does not raise
    (aiohttp performs no status check), so `_parse_page` takes the success
    path on the error page's markup: a four-field record — not the absence
    of a record — reaches the Sink for that address, and no failure is
    logged, contrary to the claim. -/
theorem parse_data_http_500_record_no_log :
    (parsePage (fun _ => none)
        (fun _ => FetchResult.ok 500 (RamblerHtml.mk none none none)) "u").1 =
      [("Заголовок", none), ("Компания", some "Сбербанк"),
       ("Дата публикации", none), ("Текст", some "")] ∧
    parseDataLogs (fun _ => none)
        (fun _ => FetchResult.ok 500 (RamblerHtml.mk none none none)) ["u"] = [] := by
  exact ⟨rfl, rfl⟩

/-- C4 amended: an address whose fetch raises (network failure, timeout)
    yields the empty dict — a record with none of the four ArticleRecord
    fields — in the list handed to the Sink, with the failure printed; an
    address whose fetch delivers a response is parsed the same way
    whatever its HTTP status (a non-2xx such as 500 does not raise), so it
    yields the four-field record extracted from the delivered markup with
    nothing logged; in both cases the batch keeps one entry per address
    and every entry depends only on its own address, so the remaining
    addresses are all still processed. -/
theorem parse_data_fetch_failure_isolated (iso : String → Option String)
    (fetch : String → FetchResult) (urls : List String) (u msg : String)
    (hf : fetch u = FetchResult.raised msg) (hu : u ∈ urls) :
    (parsePage iso fetch u).1 = ([] : RowDict) ∧
    ("Error " ++ msg) ∈ parseDataLogs iso fetch urls ∧
    (parseData iso fetch urls).length = urls.length ∧
    (∀ i : Nat, (parseData iso fetch urls)[i]? =
      (urls[i]?).map (fun v => (parsePage iso fetch v).1)) ∧
    (∀ (v : String) (status : Nat) (hdoc : RamblerHtml),
      fetch v = FetchResult.ok status hdoc →
      parsePage iso fetch v =
        ([("Заголовок", parseTitle hdoc), ("Компания", some "Сбербанк"),
          ("Дата публикации", ramblerParseDate iso hdoc),
          ("Текст", some (ramblerParseText hdoc))], [])) := by
  have hpage : parsePage iso fetch u = ([], ["Error " ++ msg]) := by
    unfold parsePage
    rw [hf]
  refine ⟨by rw [hpage], ?_, ?_, ?_, ?_⟩
  · induction urls with
    | nil => cases hu
    | cons v rest ih =>
      rw [parseDataLogs]
      rcases List.mem_cons.mp hu with hv | hr
      · subst hv
        rw [hpage]
        exact List.mem_append_left _ (List.mem_singleton.mpr rfl)
      · exact List.mem_append_right _ (ih hr)
  · rw [parseData_map]
    exact List.length_map _ _
  · intro i
    rw [parseData_map]
    exact List.getElem?_map _ _ _
  · intro v status hdoc hfv
    unfold parsePage
    rw [hfv]

/-- C4 witness: with one address delivering a 500 error page and one whose
    fetch raises, the raising address contributes the empty dict and its
    diagnostic, the batch still has an entry for every address, and the
    500 address contributes the record parsed from the error page. -/
theorem parse_data_fetch_failure_isolated_witness :
    (parsePage (fun _ => none)
        (fun s => if s = "bad" then FetchResult.raised "boom"
                  else FetchResult.ok 500 (RamblerHtml.mk none none none)) "bad").1 =
      ([] : RowDict) ∧
    ("Error " ++ "boom") ∈ parseDataLogs (fun _ => none)
        (fun s => if s = "bad" then FetchResult.raised "boom"
                  else FetchResult.ok 500 (RamblerHtml.mk none none none))
        ["good", "bad"] ∧
    (parseData (fun _ => none)
        (fun s => if s = "bad" then FetchResult.raised "boom"
                  else FetchResult.ok 500 (RamblerHtml.mk none none none))
        ["good", "bad"]).length = (["good", "bad"] : List String).length ∧
    parsePage (fun _ => none)
        (fun s => if s = "bad" then FetchResult.raised "boom"
                  else FetchResult.ok 500 (RamblerHtml.mk none none none)) "good" =
      ([("Заголовок", none), ("Компания", some "Сбербанк"),
        ("Дата публикации", none), ("Текст", some "")], []) := by
  have h := parse_data_fetch_failure_isolated (fun _ => none)
    (fun s => if s = "bad" then FetchResult.raised "boom"
              else FetchResult.ok 500 (RamblerHtml.mk none none none))
    ["good", "bad"] "bad" "boom" (by decide) (by decide)
  exact ⟨h.1, h.2.1, h.2.2.1,
    h.2.2.2.2 "good" 500 (RamblerHtml.mk none none none) (by decide)⟩

/-! ## DataParser._parse_text (ria_parser)

The RIA article page abstracted by its `.layout-article__main-over`
container: absent, or present with the texts of its `.article__text`
nodes. -/

structure RiaHtml where
  contentBlock : Option (List String)
deriving DecidableEq, Repr

/-- The `article_text` accumulator of the RIA `_parse_text` loop: the
    whitespace-normalized texts of the non-empty paragraphs, concatenated
    (no per-paragraph strip here, unlike rambler). -/
def riaConcatText (ps : List String) : String :=
  ps.foldl (fun acc p => if 0 < p.length then acc ++ pyNormalize p else acc) ""

/-- `DataParser._parse_text` (ria): build the concatenated text, then
    `article_text.split(".", maxsplit=1)[1].strip()` — everything through
    the first period is discarded and the remainder stripped; with no
    period the `[1]` raises `IndexError`, caught into `""`; a missing
    content block raises `AttributeError` on `.css`, caught into `""`. -/
def riaParseText (h : RiaHtml) : String :=
  match h.contentBlock with
  | none => ""
  | some ps =>
    match afterFirstDot (riaConcatText ps).data with
    | some rest => pyStrip (String.mk rest)
    | none => ""

theorem afterFirstDot_eq (l : List Char) :
    afterFirstDot l =
      if '.' ∈ l then some ((l.dropWhile (fun c => !(c = '.'))).drop 1) else none := by
  induction l with
  | nil => rfl
  | cons c rest ih =>
    by_cases hc : c = '.'
    · subst hc
      simp [afterFirstDot, List.dropWhile]
    · rw [afterFirstDot, if_neg hc, ih]
      by_cases hm : '.' ∈ rest
      · rw [if_pos hm, if_pos (List.mem_cons_of_mem c hm)]
        simp [List.dropWhile, hc]
      · rw [if_neg hm,
          if_neg (by simp only [List.mem_cons, hm, or_false]; exact fun h => hc h.symm)]

/-- C10: on a RIA page with a content block, `_parse_text` returns the
    concatenated (whitespace-normalized) paragraph text with everything up
    to and including the first period removed and the remainder stripped
    of surrounding whitespace — the first sentence is dropped — and when
    the concatenated text contains no period at all it returns the empty
    string instead of raising. -/
theorem ria_parse_text_drops_first_sentence (h : RiaHtml) (ps : List String)
    (hcb : h.contentBlock = some ps) :
    ('.' ∈ (riaConcatText ps).data →
      riaParseText h =
        pyStrip (String.mk
          (((riaConcatText ps).data.dropWhile (fun c => !(c = '.'))).drop 1))) ∧
    ('.' ∉ (riaConcatText ps).data → riaParseText h = "") := by
  unfold riaParseText
  rw [hcb]
  dsimp only
  rw [afterFirstDot_eq]
  constructor
  · intro hmem
    rw [if_pos hmem]
  · intro hmem
    rw [if_neg hmem]

/-- C10 witness: a page whose single paragraph is "Intro. Body text"
    yields "Body text" (first sentence dropped, remainder stripped), and a
    page whose text has no period yields the empty string. -/
theorem ria_parse_text_drops_first_sentence_witness :
    riaParseText (RiaHtml.mk (some ["Intro. Body text"])) =
      pyStrip (String.mk
        (((riaConcatText ["Intro. Body text"]).data.dropWhile (fun c => !(c = '.'))).drop 1)) ∧
    riaParseText (RiaHtml.mk (some ["No period here"])) = "" :=
  ⟨(ria_parse_text_drops_first_sentence (RiaHtml.mk (some ["Intro. Body text"]))
      ["Intro. Body text"] rfl).1 (by decide),
   (ria_parse_text_drops_first_sentence (RiaHtml.mk (some ["No period here"]))
      ["No period here"] rfl).2 (by decide)⟩
